import Mathlib

/-!
Verification development for the prepack CLI front-end (src/prepack-cli.js).

The CLI is embedded shallowly: the argument-parsing `while` loop becomes a
structurally recursive function over the argument list, the mutable
`errors : Map<BabelNodeSourceLocation, CompilerDiagnostic>` becomes an
association list with JS `Map.set` semantics, and the observable behaviour
of a run (console output, file writes, `process.exit`, invariant
violations, engine invocations) is modelled as a list of events together
with a final outcome.  `process.exit` terminates the process immediately
(a `finally` block does not run after it), while a thrown error unwinds
through `finally` first; the embedding reproduces both behaviours.
-/

namespace PrepackCLI

/-- Modelled from the spec: diagnostic severities form an ordered scale
culminating in the fatal level (the `CompilerDiagnostic` class lives in
errors.js, which is not among the provided sources; the CLI itself only
compares `error.severity === "FatalError"`). -/
inductive Severity
  | FatalError
  | RecoverableError
  | Warning
  | Information
deriving DecidableEq

def severityString : Severity → String
  | Severity.FatalError => "FatalError"
  | Severity.RecoverableError => "RecoverableError"
  | Severity.Warning => "Warning"
  | Severity.Information => "Information"

/-- A Babel source location as used by the CLI: `loc.source`,
`loc.start.line`, `loc.start.column`. -/
structure SourceLocation where
  source : String
  line : Nat
  col : Nat
deriving DecidableEq

/-- A compiler diagnostic as consumed by the CLI: location (possibly
absent), severity, error code, message, optional call stack. -/
structure CompilerDiagnostic where
  location : Option SourceLocation
  severity : Severity
  errorCode : String
  message : String
  callStack : Option String
deriving DecidableEq

/-- Modelled from the spec: the continuation-policy value returned from the
diagnostic callback; only the "continue" policy ("Recover") is used by the
CLI (the full type lives in errors.js, not among the provided sources). -/
inductive ErrorHandlerResult
  | Recover
deriving DecidableEq

/-- The per-run diagnostic store
`errors : Map<BabelNodeSourceLocation, CompilerDiagnostic>`,
modelled as an association list in insertion order. -/
abbrev DiagnosticStore := List (SourceLocation × CompilerDiagnostic)

/-- JS `Map.set`: if the key is present, update the value in place (keeping
the entry's position); otherwise append a new entry.  A JS `Map` never holds
two entries with the same key, which this recursion preserves. -/
def mapSet : DiagnosticStore → SourceLocation → CompilerDiagnostic → DiagnosticStore
  | [], k, v => [(k, v)]
  | p :: t, k, v => if p.1 = k then (k, v) :: t else p :: mapSet t k v

/-- Lines 227-230: the `errorHandler` callback.  A diagnostic with a truthy
location is inserted into the store; the callback always returns "Recover". -/
def errorHandler (errors : DiagnosticStore) (diagnostic : CompilerDiagnostic) :
    DiagnosticStore × ErrorHandlerResult :=
  match diagnostic.location with
  | some loc => (mapSet errors loc diagnostic, ErrorHandlerResult.Recover)
  | none => (errors, ErrorHandlerResult.Recover)

/-- The store accumulated over a run in which the engine reports the given
diagnostics in order (the store starts empty each run). -/
def buildStore (diags : List CompilerDiagnostic) : DiagnosticStore :=
  diags.foldl (fun m d => (errorHandler m d).1) []

/-- Lines 238-249: the `sourceMessage` computed from `loc.source`. -/
def sourceMessage (loc : SourceLocation) : String :=
  if loc.source = "" then "In an unknown source file"
  else if loc.source = "no-filename-specified" then "In stdin"
  else "In input file " ++ loc.source

/-- Lines 252-256: the console line printed for one store entry. -/
def diagnosticLine (loc : SourceLocation) (e : CompilerDiagnostic) : String :=
  sourceMessage loc ++ "(" ++ toString loc.line ++ ":" ++ toString (loc.col + 1) ++ ") "
    ++ severityString e.severity ++ " " ++ e.errorCode ++ ": " ++ e.message
    ++ " (https://github.com/facebook/prepack/wiki/" ++ e.errorCode ++ ")"

/-- Lines 236-260: the `for ([loc, error] of errors)` loop of
`printDiagnostics`.  `foundFatal` is updated before the line is printed, so
the fatal entry itself and every later entry also print the call stack
(`error.callStack || ""`). -/
def printDiagnosticsLoop (entries : List (SourceLocation × CompilerDiagnostic)) :
    List String × Bool :=
  entries.foldl
    (fun acc p =>
      let ff := acc.2 || (p.2.severity == Severity.FatalError)
      (acc.1 ++ [diagnosticLine p.1 p.2] ++ (if ff then [p.2.callStack.getD ""] else []), ff))
    ([], false)

/-- Lines 232-263: `printDiagnostics`.  Returns the console lines emitted
(the header only when the store is non-empty) and the `foundFatal` flag. -/
def printDiagnostics (errors : DiagnosticStore) : List String × Bool :=
  if errors = [] then ([], false)
  else
    let r := printDiagnosticsLoop errors
    ("Errors found while prepacking" :: r.1, r.2)

/-- Engine invocation modes (line 267 `prepackStdin` vs line 270
`prepackFileSync`). -/
inductive EngineMode
  | stdinMode
  | fileMode
deriving DecidableEq

/-- Observable actions of a run. -/
inductive Event
  | consoleLog (msg : String)
  | consoleError (msg : String)
  | diagListing (lines : List String)
  | writeFile (path : String) (contents : String)
  | invariantViolation (msg : String)
  | exitProcess (code : Nat)
  | invokeEngine (mode : EngineMode)
deriving DecidableEq

/-- One `printDiagnostics()` call as events: a non-empty store emits its
listing (modelled as a single listing event carrying the console lines); an
empty store emits nothing. -/
def printDiagnosticsEvents (errors : DiagnosticStore) : List Event :=
  if errors = [] then [] else [Event.diagListing (printDiagnostics errors).1]

def isListingEvent : Event → Bool
  | Event.diagListing _ => true
  | _ => false

/-- The number of times a run's diagnostic listing is emitted in a trace. -/
def countListings (evs : List Event) : Nat := (evs.filter isListingEvent).length

/-- JS whitespace accepted by `Number(...)` and `parseInt` (the ASCII part;
command-line tokens never carry the exotic Unicode space characters). -/
def isJsWs (c : Char) : Bool :=
  c = ' ' || c = '\t' || c = '\n' || c = '\r' || c = Char.ofNat 11 || c = Char.ofNat 12

def isDecDigit (c : Char) : Bool :=
  c = '0' || c = '1' || c = '2' || c = '3' || c = '4' ||
  c = '5' || c = '6' || c = '7' || c = '8' || c = '9'

def allDec (cs : List Char) : Bool := cs.all isDecDigit

def isHexDigitCh (c : Char) : Bool :=
  isDecDigit c || c = 'a' || c = 'b' || c = 'c' || c = 'd' || c = 'e' || c = 'f'
    || c = 'A' || c = 'B' || c = 'C' || c = 'D' || c = 'E' || c = 'F'

def isOctDigitCh (c : Char) : Bool :=
  c = '0' || c = '1' || c = '2' || c = '3' || c = '4' || c = '5' || c = '6' || c = '7'

def isBinDigitCh (c : Char) : Bool := c = '0' || c = '1'

def trimJsWs (cs : List Char) : List Char :=
  ((cs.dropWhile isJsWs).reverse.dropWhile isJsWs).reverse

/-- Split at the first exponent marker `e`/`E`, if any. -/
def splitAtExpChar : List Char → List Char × Option (List Char)
  | [] => ([], none)
  | c :: r =>
    if c = 'e' || c = 'E' then ([], some r)
    else
      let p := splitAtExpChar r
      (c :: p.1, p.2)

/-- Split at the first decimal point, if any. -/
def splitAtDotChar : List Char → List Char × Option (List Char)
  | [] => ([], none)
  | c :: r =>
    if c = '.' then ([], some r)
    else
      let p := splitAtDotChar r
      (c :: p.1, p.2)

/-- An ECMAScript exponent part (after the `e`/`E`): optional sign followed
by at least one decimal digit. -/
def expPartOk (cs : List Char) : Bool :=
  match cs with
  | c :: r => if c = '+' || c = '-' then !r.isEmpty && allDec r else !cs.isEmpty && allDec cs
  | [] => false

/-- Mantissa of a string decimal literal: `D+`, `D+.D*` or `.D+`. -/
def mantissaOk (cs : List Char) : Bool :=
  let p := splitAtDotChar cs
  match p.2 with
  | none => !p.1.isEmpty && allDec p.1
  | some b => allDec p.1 && allDec b && (!p.1.isEmpty || !b.isEmpty)

/-- Unsigned `StrDecimalLiteral`: `Infinity` or mantissa with an optional
exponent part. -/
def unsignedDecOk (cs : List Char) : Bool :=
  cs == "Infinity".data ||
  (let p := splitAtExpChar cs
   mantissaOk p.1 &&
     (match p.2 with
      | none => true
      | some e => expPartOk e))

/-- Signed `StrDecimalLiteral`: an optional single sign applies to the
decimal form only. -/
def signedDecOk (cs : List Char) : Bool :=
  match cs with
  | c :: r => if c = '+' || c = '-' then unsignedDecOk r else unsignedDecOk cs
  | [] => unsignedDecOk []

/-- A (trimmed, non-empty) string that `Number(...)` maps to a number:
`0x`/`0o`/`0b` integer literals (no sign) or a signed decimal literal. -/
def jsNumericOk (cs : List Char) : Bool :=
  match cs with
  | c0 :: x :: rest =>
    if c0 = '0' && (x = 'x' || x = 'X') then !rest.isEmpty && rest.all isHexDigitCh
    else if c0 = '0' && (x = 'o' || x = 'O') then !rest.isEmpty && rest.all isOctDigitCh
    else if c0 = '0' && (x = 'b' || x = 'B') then !rest.isEmpty && rest.all isBinDigitCh
    else signedDecOk cs
  | _ => signedDecOk cs

/-- Whether JS `isNaN(s)` holds for a string `s`, i.e. whether
`ToNumber(s)` is NaN: the whitespace-trimmed string is neither empty
(empty coerces to 0) nor a string numeric literal. -/
def jsToNumberIsNaN (s : String) : Bool :=
  let t := trimJsWs s.data
  if t.isEmpty then false else !jsNumericOk t

/-- A JS number that is either NaN or integral (`parseInt` results; the
double rounding beyond 2^53 is outside the inputs handled here). -/
inductive JsNumber
  | nan
  | int (n : Int)
deriving DecidableEq

/-- Value of a decimal digit string, most significant first. -/
def decValue (ds : List Char) : Nat :=
  ds.foldl (fun a c => a * 10 + (c.toNat - 48)) 0

def parseIntDigits (cs : List Char) (neg : Bool) : JsNumber :=
  let ds := cs.takeWhile isDecDigit
  if ds.isEmpty then JsNumber.nan
  else JsNumber.int (if neg then -(decValue ds : Int) else (decValue ds : Int))

/-- JS `parseInt(s, 10)`: skip leading whitespace, read an optional sign,
then the longest prefix of decimal digits; NaN if there is none. -/
def jsParseInt10 (s : String) : JsNumber :=
  match s.data.dropWhile isJsWs with
  | [] => JsNumber.nan
  | c :: r =>
    if c = '+' then parseIntDigits r false
    else if c = '-' then parseIntDigits r true
    else parseIntDigits (c :: r) false

/-- Line 153: `parseInt(seconds, 10) * 1000` (NaN stays NaN). -/
def jsNumMul1000 : JsNumber → JsNumber
  | JsNumber.nan => JsNumber.nan
  | JsNumber.int n => JsNumber.int (n * 1000)

/-- Lines 85-106: the `flags` table.  `reactOutput` starts as the string
"create-element" and, like every other key, is overwritten with boolean
`true` when the corresponding `--` toggle is given. -/
structure Flags where
  initializeMoreModules : Bool := false
  trace : Bool := false
  debugNames : Bool := false
  omitInvariants : Bool := false
  inlineExpressions : Bool := false
  simpleClosures : Bool := false
  abstractEffectsInAdditionalFunctions : Bool := false
  logStatistics : Bool := false
  logModules : Bool := false
  delayInitializations : Bool := false
  delayUnsupportedRequires : Bool := false
  accelerateUnsupportedRequires : Bool := true
  internalDebug : Bool := false
  debugScopes : Bool := false
  serialize : Bool := false
  residual : Bool := false
  check : Bool := false
  profile : Bool := false
  reactEnabled : Bool := false
  reactOutput : String ⊕ Bool := Sum.inl "create-element"
deriving DecidableEq

def initFlags : Flags := {}

/-- The mutable locals of `run` (lines 71-84) plus the `flags` table: the
state the argument-parsing loop builds up.  A `none` field is JS
`undefined`. -/
structure ParsedOptions where
  inputFilenames : List String := []
  outputFilename : Option String := none
  compatibility : Option String := none
  mathRandomSeed : Option String := none
  inputSourceMap : Option String := none
  outputSourceMap : Option String := none
  statsFileName : Option String := none
  maxStackDepth : Option JsNumber := none
  timeout : Option JsNumber := none
  additionalFunctions : Option (List String) := none
  lazyObjectsRuntime : Option String := none
  heapGraphFilePath : Option String := none
  debugInFilePath : Option String := none
  debugOutFilePath : Option String := none
  flags : Flags := {}
deriving DecidableEq

def initOptions : ParsedOptions := {}

/-- JS truthiness of an optional string: `undefined` and the empty string
are falsy. -/
def truthyStr : Option String → Bool
  | none => false
  | some s => s ≠ ""

/-- Modelled from the spec: the fixed enumerated set of compatibility
target environments (`CompatibilityValues` is imported from options.js,
which is not among the provided sources; no claim depends on the exact
members). -/
def CompatibilityValues : List String :=
  ["browser", "jsc-600-1-4-17", "node-source-maps", "node-cli"]

/-- Modelled from the spec: the usage synopsis printed by `--help`
(lines 172-177); the full multi-line help text is irrelevant to every
claim and is abbreviated to its first line here. -/
def usageText : String :=
  "Usage: prepack.js [ -- | input.js ] [ --out output.js ] [ --compatibility jsc ] ..."

/-- Modelled from the spec: the version string read from package.json,
which is not among the provided sources. -/
def versionText : String := "prepack-version"

/-- JS `arg.startsWith("--")` (line 110). -/
def startsWithDashDash (s : String) : Bool :=
  match s.data with
  | c1 :: c2 :: _ => c1 = '-' && c2 = '-'
  | _ => false

def jsSplitCommaAux : List Char → List Char → List String
  | [], cur => [String.mk cur.reverse]
  | c :: r, cur =>
    if c = ',' then String.mk cur.reverse :: jsSplitCommaAux r []
    else jsSplitCommaAux r (c :: cur)

/-- JS `line.split(",")` (line 157); note `"".split(",")` is `[""]`. -/
def jsSplitComma (s : String) : List String := jsSplitCommaAux s.data []

/-- Outcome of the argument-parsing loop (lines 108-191): finished options,
early return (`help`/`version`), `console.error` plus `process.exit(1)`,
or an uncaught TypeError (`line.split` on `undefined`, line 157). -/
inductive ParseResult
  | ok (opts : ParsedOptions)
  | terminated (events : List Event)
  | usageError (events : List Event)
  | typeError
deriving DecidableEq

/-- The option names that consume exactly the next token as their value. -/
def isValueOption (arg : String) : Bool :=
  arg = "out" || arg = "compatibility" || arg = "mathRandomSeed" || arg = "srcmapIn" ||
  arg = "srcmapOut" || arg = "statsFile" || arg = "maxStackDepth" || arg = "timeout" ||
  arg = "additionalFunctions" || arg = "debugInFilePath" || arg = "debugOutFilePath" ||
  arg = "lazyObjectsRuntime" || arg = "heapGraphFilePath"

/-- The keys of the `flags` table (`arg in flags`, line 183). -/
def isToggle (arg : String) : Bool :=
  arg = "initializeMoreModules" || arg = "trace" || arg = "debugNames" ||
  arg = "omitInvariants" || arg = "inlineExpressions" || arg = "simpleClosures" ||
  arg = "abstractEffectsInAdditionalFunctions" || arg = "logStatistics" ||
  arg = "logModules" || arg = "delayInitializations" || arg = "delayUnsupportedRequires" ||
  arg = "accelerateUnsupportedRequires" || arg = "internalDebug" || arg = "debugScopes" ||
  arg = "serialize" || arg = "residual" || arg = "check" || arg = "profile" ||
  arg = "reactEnabled" || arg = "reactOutput"

/-- `flags[arg] = true` (line 184). -/
def setToggle (arg : String) (opts : ParsedOptions) : ParsedOptions :=
  let f := opts.flags
  let f :=
    if arg = "initializeMoreModules" then { f with initializeMoreModules := true }
    else if arg = "trace" then { f with trace := true }
    else if arg = "debugNames" then { f with debugNames := true }
    else if arg = "omitInvariants" then { f with omitInvariants := true }
    else if arg = "inlineExpressions" then { f with inlineExpressions := true }
    else if arg = "simpleClosures" then { f with simpleClosures := true }
    else if arg = "abstractEffectsInAdditionalFunctions" then
      { f with abstractEffectsInAdditionalFunctions := true }
    else if arg = "logStatistics" then { f with logStatistics := true }
    else if arg = "logModules" then { f with logModules := true }
    else if arg = "delayInitializations" then { f with delayInitializations := true }
    else if arg = "delayUnsupportedRequires" then { f with delayUnsupportedRequires := true }
    else if arg = "accelerateUnsupportedRequires" then
      { f with accelerateUnsupportedRequires := true }
    else if arg = "internalDebug" then { f with internalDebug := true }
    else if arg = "debugScopes" then { f with debugScopes := true }
    else if arg = "serialize" then { f with serialize := true }
    else if arg = "residual" then { f with residual := true }
    else if arg = "check" then { f with check := true }
    else if arg = "profile" then { f with profile := true }
    else if arg = "reactEnabled" then { f with reactEnabled := true }
    else if arg = "reactOutput" then { f with reactOutput := Sum.inr true }
    else f
  { opts with flags := f }

/-- One value-option case of the `switch` (lines 115-170), applied to the
shifted value token (`none` when the argument list was already empty, i.e.
JS `undefined`). -/
def applyValueOption (arg : String) (v : Option String) (opts : ParsedOptions) : ParseResult :=
  if arg = "out" then ParseResult.ok { opts with outputFilename := v }
  else if arg = "compatibility" then
    match v with
    | some s =>
      if CompatibilityValues.contains s then ParseResult.ok { opts with compatibility := some s }
      else ParseResult.usageError
        [Event.consoleError ("Unsupported compatibility: " ++ s), Event.exitProcess 1]
    | none => ParseResult.usageError
        [Event.consoleError "Unsupported compatibility: undefined", Event.exitProcess 1]
  else if arg = "mathRandomSeed" then ParseResult.ok { opts with mathRandomSeed := v }
  else if arg = "srcmapIn" then ParseResult.ok { opts with inputSourceMap := v }
  else if arg = "srcmapOut" then ParseResult.ok { opts with outputSourceMap := v }
  else if arg = "statsFile" then ParseResult.ok { opts with statsFileName := v }
  else if arg = "maxStackDepth" then
    match v with
    | some s =>
      if jsToNumberIsNaN s then ParseResult.usageError
        [Event.consoleError "Stack depth value must be a number", Event.exitProcess 1]
      else ParseResult.ok { opts with maxStackDepth := some (jsParseInt10 s) }
    | none => ParseResult.usageError
        [Event.consoleError "Stack depth value must be a number", Event.exitProcess 1]
  else if arg = "timeout" then
    match v with
    | some s =>
      if jsToNumberIsNaN s then ParseResult.usageError
        [Event.consoleError "Timeout must be a number", Event.exitProcess 1]
      else ParseResult.ok { opts with timeout := some (jsNumMul1000 (jsParseInt10 s)) }
    | none => ParseResult.usageError
        [Event.consoleError "Timeout must be a number", Event.exitProcess 1]
  else if arg = "additionalFunctions" then
    match v with
    | some s => ParseResult.ok { opts with additionalFunctions := some (jsSplitComma s) }
    | none => ParseResult.typeError
  else if arg = "debugInFilePath" then ParseResult.ok { opts with debugInFilePath := v }
  else if arg = "debugOutFilePath" then ParseResult.ok { opts with debugOutFilePath := v }
  else if arg = "lazyObjectsRuntime" then ParseResult.ok { opts with lazyObjectsRuntime := v }
  else if arg = "heapGraphFilePath" then ParseResult.ok { opts with heapGraphFilePath := v }
  else ParseResult.ok opts

/-- Lines 108-191: the argument-parsing `while` loop.  A token without the
`--` marker is a positional filename; a value option shifts the next token
(possibly `undefined`); `help`/`version` return immediately; a known
toggle is set; anything else is an unknown-option usage error. -/
def parseArgs : List String → ParsedOptions → ParseResult
  | [], opts => ParseResult.ok opts
  | a :: rest, opts =>
    if !(startsWithDashDash a) then
      parseArgs rest { opts with inputFilenames := opts.inputFilenames ++ [a] }
    else
      let arg := a.drop 2
      if arg = "help" then ParseResult.terminated [Event.consoleLog usageText]
      else if arg = "version" then ParseResult.terminated [Event.consoleLog versionText]
      else if isValueOption arg then
        match rest with
        | [] => applyValueOption arg none opts
        | v :: rest2 =>
          match applyValueOption arg (some v) opts with
          | ParseResult.ok opts2 => parseArgs rest2 opts2
          | r => r
      else if isToggle arg then parseArgs rest (setToggle arg opts)
      else ParseResult.usageError
        [Event.consoleError ("Unknown option: " ++ arg), Event.exitProcess 1]

/-- Lines 192-196: serialize defaulting followed by check-mode
normalization. -/
def resolveModeFlags (f : Flags) : Flags :=
  let f1 := if !f.serialize && !f.residual then { f with serialize := true } else f
  if f1.check then { f1 with serialize := false, residual := false } else f1

/-- The engine's result object.  The statistics, timing, source-map and
heap-graph payloads are opaque to the CLI and modelled as strings (the
source map is carried in its `JSON.stringify` form); `none` is a missing
(`undefined`) field. -/
structure SerializedResult where
  code : String
  statistics : Option String := none
  timingStats : Option String := none
  map : Option String := none
  heapGraph : Option String := none
deriving DecidableEq

/-- An engine-raised failure: a `FatalError` or any other error (carrying
the text that `console.error` would display for it). -/
inductive EngineErr
  | fatal
  | other (msg : String)
deriving DecidableEq

/-- How one call to `processSerializedCode` ends: normal return,
`process.exit(code)`, or an invariant violation thrown out of it. -/
inductive POutcome
  | returned
  | exited (code : Nat)
  | invariantCrash
deriving DecidableEq

/-- Line 275/290: the invariant message accompanying a `FatalError`. -/
def fatalInvariantMsg : String := "FatalError must generate at least one CompilerDiagnostic"

/-- Line 327: `invariant(serialized.heapGraph)` carries no message. -/
def heapGraphInvariantMsg : String := "Invariant Violation"

/-- Modelled from the spec: the stack text of an invariant error printed by
the generic catch handler (the `invariant` module is not among the
provided sources; it throws on a falsy condition). -/
def invariantStackText : String := "Invariant Violation"

/-- Models `JSON.stringify` of the stats record built on lines 316-320
(opaque passthrough of the three statistics payloads). -/
def statsJson (ser timing mem : String) : String :=
  "SerializerStatistics=" ++ ser ++ ";TimingStatistics=" ++ timing
    ++ ";MemoryStatistics=" ++ mem

/-- Lines 301-330: the `if (serialized)` tail of `processSerializedCode`.
Empty code reports and returns; otherwise the output is written (or logged);
a requested stats file with a missing statistics or timing field makes the
whole function return early (line 314), skipping the source-map and
heap-graph writes as well; a requested heap graph must be a truthy field or
`invariant` throws. -/
def serializedEvents (opts : ParsedOptions) (s : SerializedResult) (memStats : String) :
    List Event × POutcome :=
  if s.code = "" then
    ([Event.consoleError "Prepack returned empty code."], POutcome.returned)
  else
    let outEvs :=
      if truthyStr opts.outputFilename then
        [Event.consoleLog ("Prepacked source code written to " ++ opts.outputFilename.getD "" ++ "."),
         Event.writeFile (opts.outputFilename.getD "") s.code]
      else [Event.consoleLog s.code]
    if truthyStr opts.statsFileName ∧ (s.statistics = none ∨ s.timingStats = none) then
      (outEvs, POutcome.returned)
    else
      let statsEvs :=
        if truthyStr opts.statsFileName then
          [Event.writeFile (opts.statsFileName.getD "")
            (statsJson (s.statistics.getD "") (s.timingStats.getD "") memStats)]
        else []
      let mapEvs :=
        if truthyStr opts.outputSourceMap then
          [Event.writeFile (opts.outputSourceMap.getD "")
            (match s.map with
             | some mp => mp
             | none => "")]
        else []
      if truthyStr opts.heapGraphFilePath then
        if truthyStr s.heapGraph then
          (outEvs ++ statsEvs ++ mapEvs ++
            [Event.writeFile (opts.heapGraphFilePath.getD "") (s.heapGraph.getD "")],
           POutcome.returned)
        else
          (outEvs ++ statsEvs ++ mapEvs ++ [Event.invariantViolation heapGraphInvariantMsg],
           POutcome.invariantCrash)
      else (outEvs ++ statsEvs ++ mapEvs, POutcome.returned)

/-- Lines 287-331: `processSerializedCode(err, serialized)`.  A
`FatalError` with an empty store violates the invariant; any other error
prints the diagnostics and the error and exits 1; otherwise the
diagnostics are printed, a fatal-severity entry forces exit 1, and the
serialized result (if any) is processed. -/
def processSerializedCode (opts : ParsedOptions) (errors : DiagnosticStore)
    (memStats : String) (err : Option EngineErr) (serialized : Option SerializedResult) :
    List Event × POutcome :=
  if err = some EngineErr.fatal ∧ errors = [] then
    ([Event.invariantViolation fatalInvariantMsg], POutcome.invariantCrash)
  else
    match err with
    | some (EngineErr.other m) =>
      (printDiagnosticsEvents errors ++ [Event.consoleError m, Event.exitProcess 1],
       POutcome.exited 1)
    | _ =>
      if (printDiagnostics errors).2 then
        (printDiagnosticsEvents errors ++ [Event.exitProcess 1], POutcome.exited 1)
      else
        match serialized with
        | none => (printDiagnosticsEvents errors, POutcome.returned)
        | some s =>
          let se := serializedEvents opts s memStats
          (printDiagnosticsEvents errors ++ se.1, se.2)

/-- Behaviour of the synchronous file-mode engine call (line 270): it either
returns a result or throws. -/
inductive FileOutcome
  | success (r : SerializedResult)
  | fatalErr
  | otherErr (msg : String)

/-- How the whole `run` invocation ends: normal completion (process exit
code 0), `process.exit(code)`, or an uncaught thrown error. -/
inductive RunOutcome
  | completed
  | exited (code : Nat)
  | crashed
deriving DecidableEq

/-- Lines 265-285 in file mode: the try/catch/finally around
`prepackFileSync` and `processSerializedCode(null, serialized)`.
`process.exit` skips the `finally`; a thrown error runs it first.  The
diagnostics reported by the engine during the call populate the store
before `processSerializedCode` or the handlers read it. -/
def runFileMode (opts : ParsedOptions) (diags : List CompilerDiagnostic)
    (outcome : FileOutcome) (memStats : String) : List Event × RunOutcome :=
  let errors := buildStore diags
  match outcome with
  | FileOutcome.success r =>
    let p := processSerializedCode opts errors memStats none (some r)
    match p.2 with
    | POutcome.exited c => (p.1, RunOutcome.exited c)
    | POutcome.invariantCrash =>
      -- the invariant error is caught by the catch clause as a
      -- non-FatalError: print diagnostics, print the stack, exit 1
      (p.1 ++ printDiagnosticsEvents errors ++
        [Event.consoleError invariantStackText, Event.exitProcess 1],
       RunOutcome.exited 1)
    | POutcome.returned =>
      -- finally: print diagnostics once more, exit 1 on a fatal entry
      if (printDiagnostics errors).2 then
        (p.1 ++ printDiagnosticsEvents errors ++ [Event.exitProcess 1], RunOutcome.exited 1)
      else (p.1 ++ printDiagnosticsEvents errors, RunOutcome.completed)
  | FileOutcome.fatalErr =>
    if errors = [] then
      -- invariant throws inside the catch clause; the finally still runs
      -- (empty store: nothing printed, no fatal), then the error
      -- propagates uncaught
      ([Event.invariantViolation fatalInvariantMsg] ++ printDiagnosticsEvents errors,
       RunOutcome.crashed)
    else
      -- invariant passes; finally prints and exits 1 on a fatal entry
      if (printDiagnostics errors).2 then
        (printDiagnosticsEvents errors ++ [Event.exitProcess 1], RunOutcome.exited 1)
      else (printDiagnosticsEvents errors, RunOutcome.completed)
  | FileOutcome.otherErr m =>
    -- catch: print diagnostics, print err.stack, exit 1 (finally skipped)
    (printDiagnosticsEvents errors ++ [Event.consoleError m, Event.exitProcess 1],
     RunOutcome.exited 1)

/-- Lines 266-268 in stream mode: `prepackStdin` is called with
`processSerializedCode` as continuation and `run` returns; the `finally`
executes at that point with a still-empty store (the engine works
asynchronously), printing nothing.  The continuation later runs against
the store accumulated during the engine call. -/
def runStreamMode (opts : ParsedOptions) (diags : List CompilerDiagnostic)
    (err : Option EngineErr) (serialized : Option SerializedResult) (memStats : String) :
    List Event × RunOutcome :=
  let errors := buildStore diags
  let p := processSerializedCode opts errors memStats err serialized
  (p.1,
   match p.2 with
   | POutcome.returned => RunOutcome.completed
   | POutcome.exited c => RunOutcome.exited c
   | POutcome.invariantCrash => RunOutcome.crashed)

/-- What the engine does when invoked, for each mode. -/
structure EngineBehavior where
  fileDiags : List CompilerDiagnostic
  fileOutcome : FileOutcome
  streamDiags : List CompilerDiagnostic
  streamErr : Option EngineErr
  streamResult : Option SerializedResult

/-- Line 221: the configuration-conflict message. -/
def lazyConflictMsg : String :=
  "lazy objects feature is incompatible with additionalFunctions, delayInitializations and inlineExpressions options"

/-- Lines 192-285: everything after the parsing loop — flag resolution,
the lazy-objects conflict check (which exits before any engine call), and
the dispatch on an empty vs non-empty filename list. -/
def runWithOptions (opts0 : ParsedOptions) (eng : EngineBehavior) (memStats : String) :
    List Event × RunOutcome :=
  let opts := { opts0 with flags := resolveModeFlags opts0.flags }
  if truthyStr opts.lazyObjectsRuntime &&
      (opts.additionalFunctions.isSome || opts.flags.delayInitializations ||
        opts.flags.inlineExpressions) then
    ([Event.consoleError lazyConflictMsg, Event.exitProcess 1], RunOutcome.exited 1)
  else if opts.inputFilenames.isEmpty then
    let p := runStreamMode opts eng.streamDiags eng.streamErr eng.streamResult memStats
    (Event.invokeEngine EngineMode.stdinMode :: p.1, p.2)
  else
    let p := runFileMode opts eng.fileDiags eng.fileOutcome memStats
    (Event.invokeEngine EngineMode.fileMode :: p.1, p.2)

/-- The whole `run` function: parse, then resolve and dispatch. -/
def runMain (argv : List String) (eng : EngineBehavior) (memStats : String) :
    List Event × RunOutcome :=
  match parseArgs argv initOptions with
  | ParseResult.ok opts => runWithOptions opts eng memStats
  | ParseResult.terminated evs => (evs, RunOutcome.completed)
  | ParseResult.usageError evs => (evs, RunOutcome.exited 1)
  | ParseResult.typeError => ([], RunOutcome.crashed)

/-- The entries of the store stored at a given location key (in order). -/
def entriesAt (s : DiagnosticStore) (k : SourceLocation) : List CompilerDiagnostic :=
  (s.filter (fun p => p.1 == k)).map Prod.snd

/-- Spec-side predicate (claim C4's wording): the token is a base-10
integer literal, i.e. an optional sign followed by at least one decimal
digit. -/
def isBase10IntegerToken (s : String) : Bool :=
  match s.data with
  | [] => false
  | c :: r => if c = '+' || c = '-' then !r.isEmpty && allDec r else allDec (c :: r)

/-- Spec-side value of a base-10 integer token. -/
def base10TokenValue (s : String) : Int :=
  match s.data with
  | [] => 0
  | c :: r =>
    if c = '-' then -(decValue r : Int)
    else if c = '+' then (decValue r : Int)
    else (decValue (c :: r) : Int)

/-- Concrete sample objects used by witnesses and counterexamples. -/
def sampleLoc : SourceLocation := { source := "input.js", line := 1, col := 0 }

def warnDiag : CompilerDiagnostic :=
  { location := some sampleLoc, severity := Severity.Warning, errorCode := "PP1004",
    message := "sample warning", callStack := none }

def dupLocDiag : CompilerDiagnostic :=
  { location := some sampleLoc, severity := Severity.RecoverableError, errorCode := "PP2002",
    message := "second diagnostic at the same location", callStack := none }

def fatalDiag : CompilerDiagnostic :=
  { location := some sampleLoc, severity := Severity.FatalError, errorCode := "PP9001",
    message := "sample fatal", callStack := some "stacktext" }

def noLocDiag : CompilerDiagnostic :=
  { location := none, severity := Severity.FatalError, errorCode := "PP9002",
    message := "sample without location", callStack := none }

def sampleResult : SerializedResult := { code := "var x = 1;" }

def emptyResult : SerializedResult := { code := "" }

def statsCfg : ParsedOptions :=
  { initOptions with statsFileName := some "stats.json", outputSourceMap := some "out.map" }

def statsMissingResult : SerializedResult :=
  { code := "var x = 1;", statistics := some "SER", timingStats := none, map := some "MAPDATA" }

def lazyCfg : ParsedOptions :=
  { initOptions with lazyObjectsRuntime := some "X", additionalFunctions := some ["a", "b"] }

def idleEngine : EngineBehavior :=
  { fileDiags := [], fileOutcome := FileOutcome.success sampleResult,
    streamDiags := [], streamErr := none, streamResult := none }

/-! Helper lemmas. -/

lemma resolveModeFlags_delayInitializations (f : Flags) :
    (resolveModeFlags f).delayInitializations = f.delayInitializations := by
  cases hs : f.serialize <;> cases hr : f.residual <;> cases hc : f.check <;>
    simp [resolveModeFlags, hs, hr, hc]

lemma resolveModeFlags_inlineExpressions (f : Flags) :
    (resolveModeFlags f).inlineExpressions = f.inlineExpressions := by
  cases hs : f.serialize <;> cases hr : f.residual <;> cases hc : f.check <;>
    simp [resolveModeFlags, hs, hr, hc]

lemma mem_keys_mapSet {s : DiagnosticStore} {k x : SourceLocation} {v : CompilerDiagnostic}
    (h : x ∈ (mapSet s k v).map Prod.fst) : x ∈ s.map Prod.fst ∨ x = k := by
  induction s with
  | nil =>
    simp only [mapSet, List.map_cons, List.map_nil, List.mem_cons, List.not_mem_nil,
      or_false] at h
    exact Or.inr h
  | cons p t ih =>
    by_cases hp : p.1 = k
    · simp only [mapSet, if_pos hp, List.map_cons, List.mem_cons] at h
      rcases h with h | h
      · exact Or.inr h
      · exact Or.inl (by simp only [List.map_cons, List.mem_cons]; exact Or.inr h)
    · simp only [mapSet, if_neg hp, List.map_cons, List.mem_cons] at h
      rcases h with h | h
      · exact Or.inl (by simp only [List.map_cons, List.mem_cons]; exact Or.inl h)
      · rcases ih h with h2 | h2
        · exact Or.inl (by simp only [List.map_cons, List.mem_cons]; exact Or.inr h2)
        · exact Or.inr h2

lemma nodup_keys_mapSet {s : DiagnosticStore} (hs : (s.map Prod.fst).Nodup)
    (k : SourceLocation) (v : CompilerDiagnostic) :
    ((mapSet s k v).map Prod.fst).Nodup := by
  induction s with
  | nil => simp [mapSet]
  | cons p t ih =>
    simp only [List.map_cons, List.nodup_cons] at hs
    by_cases hp : p.1 = k
    · simp only [mapSet, if_pos hp, List.map_cons, List.nodup_cons]
      exact ⟨hp ▸ hs.1, hs.2⟩
    · simp only [mapSet, if_neg hp, List.map_cons, List.nodup_cons]
      refine ⟨?_, ih hs.2⟩
      intro hmem
      rcases mem_keys_mapSet hmem with h | h
      · exact hs.1 h
      · exact hp h

lemma entriesAt_nil_of_not_mem {s : DiagnosticStore} {k : SourceLocation}
    (h : k ∉ s.map Prod.fst) : entriesAt s k = [] := by
  induction s with
  | nil => rfl
  | cons p t ih =>
    simp only [List.map_cons, List.mem_cons, not_or] at h
    have hp : (p.1 == k) = false := by
      simp only [beq_eq_false_iff_ne, ne_eq]
      exact fun he => h.1 he.symm
    simp [entriesAt, List.filter_cons, hp]
    simpa [entriesAt] using ih h.2

lemma entriesAt_mapSet_self {s : DiagnosticStore} (hs : (s.map Prod.fst).Nodup)
    (k : SourceLocation) (v : CompilerDiagnostic) :
    entriesAt (mapSet s k v) k = [v] := by
  induction s with
  | nil => simp [mapSet, entriesAt]
  | cons p t ih =>
    simp only [List.map_cons, List.nodup_cons] at hs
    by_cases hp : p.1 = k
    · have hk : k ∉ t.map Prod.fst := hp ▸ hs.1
      simp [mapSet, hp, entriesAt, List.filter_cons]
      simpa [entriesAt] using entriesAt_nil_of_not_mem hk
    · have hpb : (p.1 == k) = false := by
        simp only [beq_eq_false_iff_ne, ne_eq]
        exact hp
      simp only [mapSet, if_neg hp]
      simp [entriesAt, List.filter_cons, hpb]
      simpa [entriesAt] using ih hs.2

lemma nodup_keys_errorHandler_foldl (l : List CompilerDiagnostic) (s : DiagnosticStore)
    (hs : (s.map Prod.fst).Nodup) :
    ((l.foldl (fun m d => (errorHandler m d).1) s).map Prod.fst).Nodup := by
  induction l generalizing s with
  | nil => simpa using hs
  | cons d t ih =>
    simp only [List.foldl_cons]
    apply ih
    rcases hd : d.location with _ | loc
    · simpa [errorHandler, hd] using hs
    · simpa [errorHandler, hd] using nodup_keys_mapSet hs loc d

lemma isDecDigit_cases {c : Char} (h : isDecDigit c = true) :
    c = '0' ∨ c = '1' ∨ c = '2' ∨ c = '3' ∨ c = '4' ∨
    c = '5' ∨ c = '6' ∨ c = '7' ∨ c = '8' ∨ c = '9' := by
  simpa [isDecDigit, or_assoc] using h

lemma decDigit_props {c : Char} (h : isDecDigit c = true) :
    isJsWs c = false ∧ c ≠ 'e' ∧ c ≠ 'E' ∧ c ≠ '.' ∧ c ≠ '+' ∧ c ≠ '-' ∧
    c ≠ 'x' ∧ c ≠ 'X' ∧ c ≠ 'o' ∧ c ≠ 'O' ∧ c ≠ 'b' ∧ c ≠ 'B' := by
  rcases isDecDigit_cases h with rfl | rfl | rfl | rfl | rfl | rfl | rfl | rfl | rfl | rfl <;>
    exact (by decide)

lemma allDec_no_ws {cs : List Char} (h : allDec cs = true) :
    ∀ c ∈ cs, isJsWs c = false := by
  intro c hc
  exact (decDigit_props (by simpa [allDec] using (List.all_eq_true.mp h c hc))).1

lemma no_ws_trim {cs : List Char} (h : ∀ c ∈ cs, isJsWs c = false) : trimJsWs cs = cs := by
  have h1 : cs.dropWhile isJsWs = cs := by
    cases cs with
    | nil => rfl
    | cons c t => simp [List.dropWhile_cons, h c (by simp)]
  have h2 : cs.reverse.dropWhile isJsWs = cs.reverse := by
    cases hrev : cs.reverse with
    | nil => rfl
    | cons c t =>
      have hc : c ∈ cs := by
        have : c ∈ cs.reverse := by rw [hrev]; simp
        simpa using this
      simp [List.dropWhile_cons, h c hc]
  unfold trimJsWs
  rw [h1, h2, List.reverse_reverse]

lemma splitAtExp_allDec {cs : List Char} (h : allDec cs = true) :
    splitAtExpChar cs = (cs, none) := by
  induction cs with
  | nil => rfl
  | cons c t ih =>
    simp only [allDec, List.all_cons, Bool.and_eq_true] at h
    have hp := decDigit_props h.1
    have he : (decide (c = 'e') || decide (c = 'E')) = false := by
      simp only [Bool.or_eq_false_iff, decide_eq_false_iff_not]
      exact ⟨hp.2.1, hp.2.2.1⟩
    simp [splitAtExpChar, he, ih h.2]

lemma splitAtDot_allDec {cs : List Char} (h : allDec cs = true) :
    splitAtDotChar cs = (cs, none) := by
  induction cs with
  | nil => rfl
  | cons c t ih =>
    simp only [allDec, List.all_cons, Bool.and_eq_true] at h
    have hp := decDigit_props h.1
    simp [splitAtDotChar, hp.2.2.2.1, ih h.2]

lemma takeWhile_allDec {cs : List Char} (h : allDec cs = true) :
    cs.takeWhile isDecDigit = cs := by
  induction cs with
  | nil => rfl
  | cons c t ih =>
    simp only [allDec, List.all_cons, Bool.and_eq_true] at h
    simp [List.takeWhile_cons, h.1, ih h.2]

lemma unsignedDecOk_allDec {cs : List Char} (h : allDec cs = true) (hne : cs ≠ []) :
    unsignedDecOk cs = true := by
  have hie : cs.isEmpty = false := by
    cases cs with
    | nil => exact absurd rfl hne
    | cons c t => rfl
  simp [unsignedDecOk, splitAtExp_allDec h, mantissaOk, splitAtDot_allDec h, h, hie]

lemma numericOk_of_sign_digits {c : Char} {r : List Char} (hc : c = '+' ∨ c = '-')
    (hr : allDec r = true) (hne : r ≠ []) : jsNumericOk (c :: r) = true := by
  cases r with
  | nil => exact absurd rfl hne
  | cons x t =>
    have hu : unsignedDecOk (x :: t) = true := unsignedDecOk_allDec hr (by simp)
    rcases hc with rfl | rfl <;> simp [jsNumericOk, signedDecOk, hu]

lemma numericOk_of_digits {cs : List Char} (h : allDec cs = true) (hne : cs ≠ []) :
    jsNumericOk cs = true := by
  have hu : unsignedDecOk cs = true := unsignedDecOk_allDec h hne
  cases cs with
  | nil => exact absurd rfl hne
  | cons c r =>
    have hall := h
    simp only [allDec, List.all_cons, Bool.and_eq_true] at hall
    have hpc := decDigit_props hall.1
    have hcsign : (decide (c = '+') || decide (c = '-')) = false := by
      simp only [Bool.or_eq_false_iff, decide_eq_false_iff_not]
      exact ⟨hpc.2.2.2.2.1, hpc.2.2.2.2.2.1⟩
    cases r with
    | nil => simp [jsNumericOk, signedDecOk, hcsign, hu]
    | cons x t =>
      have hpx := decDigit_props (by
        simpa [isDecDigit] using (List.all_eq_true.mp hall.2 x (by simp)))
      have h1 : (decide (x = 'x') || decide (x = 'X')) = false := by
        simp only [Bool.or_eq_false_iff, decide_eq_false_iff_not]
        exact ⟨hpx.2.2.2.2.2.2.1, hpx.2.2.2.2.2.2.2.1⟩
      have h2 : (decide (x = 'o') || decide (x = 'O')) = false := by
        simp only [Bool.or_eq_false_iff, decide_eq_false_iff_not]
        exact ⟨hpx.2.2.2.2.2.2.2.2.1, hpx.2.2.2.2.2.2.2.2.2.1⟩
      have h3 : (decide (x = 'b') || decide (x = 'B')) = false := by
        simp only [Bool.or_eq_false_iff, decide_eq_false_iff_not]
        exact ⟨hpx.2.2.2.2.2.2.2.2.2.2.1, hpx.2.2.2.2.2.2.2.2.2.2.2⟩
      simp [jsNumericOk, h1, h2, h3, signedDecOk, hcsign, hu]

lemma isBase10_cons_sign {s : String} {c : Char} {r : List Char}
    (hd : s.data = c :: r) (hsign : c = '+' ∨ c = '-') :
    isBase10IntegerToken s = (!r.isEmpty && allDec r) := by
  rw [isBase10IntegerToken, hd]
  rcases hsign with rfl | rfl <;> rfl

lemma isBase10_cons_nosign {s : String} {c : Char} {r : List Char}
    (hd : s.data = c :: r) (h1 : ¬c = '+') (h2 : ¬c = '-') :
    isBase10IntegerToken s = allDec (c :: r) := by
  rw [isBase10IntegerToken, hd]
  simp [decide_eq_false h1, decide_eq_false h2]

lemma jsToNumberIsNaN_of_numericOk {s : String} {c : Char} {r : List Char}
    (hd : s.data = c :: r) (htrim : trimJsWs (c :: r) = c :: r)
    (hok : jsNumericOk (c :: r) = true) :
    jsToNumberIsNaN s = false := by
  simp only [jsToNumberIsNaN, hd, htrim]
  simp [hok]

lemma jsToNumberIsNaN_base10 {s : String} (h : isBase10IntegerToken s = true) :
    jsToNumberIsNaN s = false := by
  rcases hd : s.data with _ | ⟨c, r⟩
  · rw [isBase10IntegerToken, hd] at h
    simp at h
  · by_cases hsign : c = '+' ∨ c = '-'
    · rw [isBase10_cons_sign hd hsign] at h
      simp only [Bool.and_eq_true, Bool.not_eq_true'] at h
      have hne : r ≠ [] := by
        cases r with
        | nil => simp at h
        | cons a b => simp
      have hnows : ∀ ch ∈ (c :: r), isJsWs ch = false := by
        intro ch hch
        rcases List.mem_cons.mp hch with rfl | hm
        · rcases hsign with rfl | rfl <;> decide
        · exact allDec_no_ws h.2 ch hm
      exact jsToNumberIsNaN_of_numericOk hd (no_ws_trim hnows)
        (numericOk_of_sign_digits hsign h.2 hne)
    · push_neg at hsign
      rw [isBase10_cons_nosign hd hsign.1 hsign.2] at h
      exact jsToNumberIsNaN_of_numericOk hd (no_ws_trim (allDec_no_ws h))
        (numericOk_of_digits h (by simp))

lemma jsParseInt10_base10 {s : String} (h : isBase10IntegerToken s = true) :
    jsParseInt10 s = JsNumber.int (base10TokenValue s) := by
  rcases hd : s.data with _ | ⟨c, r⟩
  · rw [isBase10IntegerToken, hd] at h
    simp at h
  · by_cases hsign : c = '+' ∨ c = '-'
    · rw [isBase10_cons_sign hd hsign] at h
      simp only [Bool.and_eq_true, Bool.not_eq_true'] at h
      have hdrop : s.data.dropWhile isJsWs = c :: r := by
        rw [hd]
        rcases hsign with rfl | rfl <;> simp [List.dropWhile_cons, isJsWs]
      rw [jsParseInt10, hdrop, base10TokenValue, hd]
      rcases hsign with rfl | rfl <;>
        simp [parseIntDigits, takeWhile_allDec h.2, h.1]
    · push_neg at hsign
      rw [isBase10_cons_nosign hd hsign.1 hsign.2] at h
      have hc := decDigit_props (by
        simpa [isDecDigit] using (List.all_eq_true.mp h c (by simp)))
      have hdrop : s.data.dropWhile isJsWs = c :: r := by
        rw [hd]
        simp [List.dropWhile_cons, hc.1]
      rw [jsParseInt10, hdrop, base10TokenValue, hd]
      simp [hsign.1, hsign.2, parseIntDigits, takeWhile_allDec h]

lemma countListings_append (a b : List Event) :
    countListings (a ++ b) = countListings a + countListings b := by
  simp [countListings, List.filter_append]

lemma countListings_pde (errors : DiagnosticStore) :
    countListings (printDiagnosticsEvents errors) = if errors = [] then 0 else 1 := by
  by_cases h : errors = [] <;>
    simp [printDiagnosticsEvents, h, countListings, isListingEvent]

lemma countListings_serialized (opts : ParsedOptions) (s : SerializedResult) (m : String) :
    countListings (serializedEvents opts s m).1 = 0 := by
  unfold serializedEvents
  split_ifs <;> simp [countListings, isListingEvent, List.filter_append]

lemma printDiagnostics_nil_snd : (printDiagnostics ([] : DiagnosticStore)).2 = false := rfl

lemma countListings_pSC (opts : ParsedOptions) (errors : DiagnosticStore) (m : String)
    (err : Option EngineErr) (serialized : Option SerializedResult) :
    countListings (processSerializedCode opts errors m err serialized).1 =
      if errors = [] then 0 else 1 := by
  by_cases h0 : err = some EngineErr.fatal ∧ errors = []
  · rw [processSerializedCode.eq_def, if_pos h0]
    simp [countListings, isListingEvent, h0.2]
  · rw [processSerializedCode.eq_def, if_neg h0]
    rcases err with _ | e
    · show countListings
        (if (printDiagnostics errors).2 = true
         then (printDiagnosticsEvents errors ++ [Event.exitProcess 1], POutcome.exited 1)
         else match serialized with
           | none => (printDiagnosticsEvents errors, POutcome.returned)
           | some s => (printDiagnosticsEvents errors ++ (serializedEvents opts s m).1,
               (serializedEvents opts s m).2)).1 = _
      by_cases hf : (printDiagnostics errors).2 = true
      · rw [if_pos hf]
        rw [countListings_append, countListings_pde]
        simp [countListings, isListingEvent]
      · rw [if_neg hf]
        rcases serialized with _ | s
        · exact countListings_pde errors
        · show countListings (printDiagnosticsEvents errors ++ (serializedEvents opts s m).1) = _
          rw [countListings_append, countListings_pde, countListings_serialized]
          simp
    · cases e with
      | fatal =>
        show countListings
          (if (printDiagnostics errors).2 = true
           then (printDiagnosticsEvents errors ++ [Event.exitProcess 1], POutcome.exited 1)
           else match serialized with
             | none => (printDiagnosticsEvents errors, POutcome.returned)
             | some s => (printDiagnosticsEvents errors ++ (serializedEvents opts s m).1,
                 (serializedEvents opts s m).2)).1 = _
        by_cases hf : (printDiagnostics errors).2 = true
        · rw [if_pos hf]
          rw [countListings_append, countListings_pde]
          simp [countListings, isListingEvent]
        · rw [if_neg hf]
          rcases serialized with _ | s
          · exact countListings_pde errors
          · show countListings (printDiagnosticsEvents errors ++ (serializedEvents opts s m).1) = _
            rw [countListings_append, countListings_pde, countListings_serialized]
            simp
      | other msg =>
        show countListings
          (printDiagnosticsEvents errors ++ [Event.consoleError msg, Event.exitProcess 1]) = _
        rw [countListings_append, countListings_pde]
        simp [countListings, isListingEvent]

lemma pSC_exits_on_fatal (opts : ParsedOptions) (errors : DiagnosticStore) (m : String)
    (err : Option EngineErr) (serialized : Option SerializedResult)
    (hf : (printDiagnostics errors).2 = true) :
    (processSerializedCode opts errors m err serialized).2 = POutcome.exited 1 := by
  have hne : errors ≠ [] := by
    intro he
    rw [he] at hf
    simp [printDiagnostics] at hf
  rw [processSerializedCode.eq_def, if_neg (by simp [hne])]
  rcases err with _ | e
  · show (if (printDiagnostics errors).2 = true
         then (printDiagnosticsEvents errors ++ [Event.exitProcess 1], POutcome.exited 1)
         else match serialized with
           | none => (printDiagnosticsEvents errors, POutcome.returned)
           | some s => (printDiagnosticsEvents errors ++ (serializedEvents opts s m).1,
               (serializedEvents opts s m).2)).2 = _
    rw [if_pos hf]
  · cases e with
    | fatal =>
      show (if (printDiagnostics errors).2 = true
           then (printDiagnosticsEvents errors ++ [Event.exitProcess 1], POutcome.exited 1)
           else match serialized with
             | none => (printDiagnosticsEvents errors, POutcome.returned)
             | some s => (printDiagnosticsEvents errors ++ (serializedEvents opts s m).1,
                 (serializedEvents opts s m).2)).2 = _
      rw [if_pos hf]
    | other msg => rfl

lemma runStreamMode_count (opts : ParsedOptions) (diags : List CompilerDiagnostic)
    (err : Option EngineErr) (sr : Option SerializedResult) (m : String)
    (hne : buildStore diags ≠ []) :
    countListings (runStreamMode opts diags err sr m).1 = 1 := by
  simp only [runStreamMode]
  rw [countListings_pSC]
  simp [hne]

lemma runStreamMode_fatal_exits (opts : ParsedOptions) (diags : List CompilerDiagnostic)
    (err : Option EngineErr) (sr : Option SerializedResult) (m : String)
    (hf : (printDiagnostics (buildStore diags)).2 = true) :
    (runStreamMode opts diags err sr m).2 = RunOutcome.exited 1 := by
  have hp := pSC_exits_on_fatal opts (buildStore diags) m err sr hf
  simp only [runStreamMode]
  rw [hp]

lemma runFileMode_fatal_exits (opts : ParsedOptions) (diags : List CompilerDiagnostic)
    (o : FileOutcome) (m : String)
    (hf : (printDiagnostics (buildStore diags)).2 = true) :
    (runFileMode opts diags o m).2 = RunOutcome.exited 1 := by
  have hne : buildStore diags ≠ [] := by
    intro he
    rw [he] at hf
    simp [printDiagnostics] at hf
  rcases o with r0 | _ | msg
  · have hp := pSC_exits_on_fatal opts (buildStore diags) m none (some r0) hf
    simp only [runFileMode]
    rw [hp]
  · simp only [runFileMode]
    rw [if_neg hne, if_pos hf]
  · simp only [runFileMode]

lemma runFileMode_count_ge_one (opts : ParsedOptions) (diags : List CompilerDiagnostic)
    (o : FileOutcome) (m : String) (hne : buildStore diags ≠ []) :
    1 ≤ countListings (runFileMode opts diags o m).1 := by
  rcases o with r0 | _ | msg
  · rcases hp : (processSerializedCode opts (buildStore diags) m none (some r0)).2 with _ | c | _
    · simp only [runFileMode]
      rw [hp]
      by_cases hf : (printDiagnostics (buildStore diags)).2 = true
      · rw [if_pos hf]
        simp only [List.append_assoc, countListings_append, countListings_pSC,
          countListings_pde]
        simp [hne]
      · rw [if_neg hf]
        simp only [countListings_append, countListings_pSC, countListings_pde]
        simp [hne]
    · simp only [runFileMode]
      rw [hp]
      simp only [countListings_pSC]
      simp [hne]
    · simp only [runFileMode]
      rw [hp]
      simp only [List.append_assoc, countListings_append, countListings_pSC, countListings_pde]
      simp [hne]
  · simp only [runFileMode]
    rw [if_neg hne]
    by_cases hf : (printDiagnostics (buildStore diags)).2 = true
    · rw [if_pos hf]
      rw [countListings_append, countListings_pde]
      simp [hne]
    · rw [if_neg hf]
      rw [countListings_pde]
      simp [hne]
  · simp only [runFileMode]
    rw [countListings_append, countListings_pde]
    simp [hne]

lemma runFileMode_success_completed_count (opts : ParsedOptions)
    (diags : List CompilerDiagnostic) (r : SerializedResult) (m : String)
    (hne : buildStore diags ≠ [])
    (hc : (runFileMode opts diags (FileOutcome.success r) m).2 = RunOutcome.completed) :
    countListings (runFileMode opts diags (FileOutcome.success r) m).1 = 2 := by
  rcases hp : (processSerializedCode opts (buildStore diags) m none (some r)).2 with _ | c | _
  · simp only [runFileMode] at hc ⊢
    rw [hp] at hc ⊢
    by_cases hf : (printDiagnostics (buildStore diags)).2 = true
    · rw [if_pos hf] at hc
      simp at hc
    · rw [if_neg hf]
      rw [countListings_append, countListings_pSC, countListings_pde]
      simp [hne]
  · simp only [runFileMode] at hc
    rw [hp] at hc
    simp at hc
  · simp only [runFileMode] at hc
    rw [hp] at hc
    simp at hc

/-! Claim theorems. -/

/-- C2 (corrected): after defaulting and check-mode normalization, check
mode forces both serialize and residual off; outside check mode at least
one of them is on, and exactly one unless the user switched both on, in
which case both stay on. -/
theorem spec_C2 (f : Flags) :
    (resolveModeFlags f).check = f.check ∧
    (f.check = true →
      (resolveModeFlags f).serialize = false ∧ (resolveModeFlags f).residual = false) ∧
    (f.check = false →
      ((resolveModeFlags f).serialize || (resolveModeFlags f).residual) = true) ∧
    (f.check = false → (f.serialize && f.residual) = false →
      (resolveModeFlags f).serialize = !(resolveModeFlags f).residual) ∧
    (f.check = false → f.serialize = true → f.residual = true →
      (resolveModeFlags f).serialize = true ∧ (resolveModeFlags f).residual = true) := by
  cases hs : f.serialize <;> cases hr : f.residual <;> cases hc : f.check <;>
    simp [resolveModeFlags, hs, hr, hc]

/-- C2 witness: the amended statement at concrete inputs. -/
theorem spec_C2_witness :
    ((resolveModeFlags { initFlags with check := true }).serialize = false ∧
      (resolveModeFlags { initFlags with check := true }).residual = false) ∧
    ((resolveModeFlags initFlags).serialize || (resolveModeFlags initFlags).residual) = true ∧
    (resolveModeFlags initFlags).serialize = !(resolveModeFlags initFlags).residual :=
  ⟨(spec_C2 { initFlags with check := true }).2.1 rfl,
   (spec_C2 initFlags).2.2.1 rfl,
   (spec_C2 initFlags).2.2.2.1 rfl rfl⟩

/-- C2 counterexample: with both serialize and residual supplied and no
check, the resolver leaves both true — "exactly one of serialize/residual"
fails. -/
theorem spec_C2_cx :
    (resolveModeFlags { initFlags with serialize := true, residual := true }).serialize = true ∧
    (resolveModeFlags { initFlags with serialize := true, residual := true }).residual = true ∧
    (resolveModeFlags { initFlags with serialize := true, residual := true }).check = false := by
  refine ⟨rfl, rfl, rfl⟩

/-- C5 (confirmed): an engine FatalError with an empty DiagnosticStore
triggers the `invariant(errors.size > 0, ...)` check in both modes: a loud
invariant violation is emitted and the run crashes rather than the
condition being swallowed. -/
theorem spec_C5 (opts : ParsedOptions) (diags : List CompilerDiagnostic) (m : String)
    (h : buildStore diags = []) :
    runFileMode opts diags FileOutcome.fatalErr m =
      ([Event.invariantViolation fatalInvariantMsg], RunOutcome.crashed) ∧
    runStreamMode opts diags (some EngineErr.fatal) none m =
      ([Event.invariantViolation fatalInvariantMsg], RunOutcome.crashed) := by
  constructor
  · simp [runFileMode, h, printDiagnosticsEvents]
  · simp [runStreamMode, processSerializedCode, h]

/-- C5 witness: both modes at the concrete empty diagnostic list. -/
theorem spec_C5_witness :
    runFileMode initOptions [] FileOutcome.fatalErr "mem" =
      ([Event.invariantViolation fatalInvariantMsg], RunOutcome.crashed) ∧
    runStreamMode initOptions [] (some EngineErr.fatal) none "mem" =
      ([Event.invariantViolation fatalInvariantMsg], RunOutcome.crashed) :=
  spec_C5 initOptions [] "mem" rfl

/-- C9 (confirmed): a diagnostic without a location is discarded by the
callback — the store, the printed listing and the fatal-severity scan are
all unchanged — while the callback still returns the Recover policy. -/
theorem spec_C9 (errors : DiagnosticStore) (d : CompilerDiagnostic)
    (h : d.location = none) :
    errorHandler errors d = (errors, ErrorHandlerResult.Recover) ∧
    printDiagnostics (errorHandler errors d).1 = printDiagnostics errors ∧
    (printDiagnostics (errorHandler errors d).1).2 = (printDiagnostics errors).2 := by
  simp [errorHandler, h]

/-- C9 witness: a locationless fatal-severity diagnostic at the empty
store. -/
theorem spec_C9_witness :
    errorHandler [] noLocDiag = ([], ErrorHandlerResult.Recover) ∧
    printDiagnostics (errorHandler [] noLocDiag).1 = printDiagnostics [] ∧
    (printDiagnostics (errorHandler [] noLocDiag).1).2 = (printDiagnostics []).2 :=
  spec_C9 [] noLocDiag rfl

/-- C10 (confirmed): a value option as the final token produces no
missing-value usage error: each plain string option is simply left unset
(assigned JS `undefined`), while `additionalFunctions` crashes with an
uncaught TypeError from `line.split` on `undefined`. -/
theorem spec_C10 (opts : ParsedOptions) :
    parseArgs ["--out"] opts = ParseResult.ok { opts with outputFilename := none } ∧
    parseArgs ["--mathRandomSeed"] opts = ParseResult.ok { opts with mathRandomSeed := none } ∧
    parseArgs ["--srcmapIn"] opts = ParseResult.ok { opts with inputSourceMap := none } ∧
    parseArgs ["--srcmapOut"] opts = ParseResult.ok { opts with outputSourceMap := none } ∧
    parseArgs ["--statsFile"] opts = ParseResult.ok { opts with statsFileName := none } ∧
    parseArgs ["--debugInFilePath"] opts = ParseResult.ok { opts with debugInFilePath := none } ∧
    parseArgs ["--debugOutFilePath"] opts = ParseResult.ok { opts with debugOutFilePath := none } ∧
    parseArgs ["--lazyObjectsRuntime"] opts = ParseResult.ok { opts with lazyObjectsRuntime := none } ∧
    parseArgs ["--heapGraphFilePath"] opts = ParseResult.ok { opts with heapGraphFilePath := none } ∧
    parseArgs ["--additionalFunctions"] opts = ParseResult.typeError := by
  refine ⟨?_, ?_, ?_, ?_, ?_, ?_, ?_, ?_, ?_, ?_⟩ <;> rfl

/-- C6 (confirmed): a truthy lazy-objects runtime name combined with any of
additionalFunctions, delayInitializations or inlineExpressions makes the
run print the configuration-conflict message and exit 1 before either
engine entry point is invoked. -/
theorem spec_C6 (opts : ParsedOptions) (eng : EngineBehavior) (m : String)
    (h1 : truthyStr opts.lazyObjectsRuntime = true)
    (h2 : opts.additionalFunctions.isSome = true ∨ opts.flags.delayInitializations = true ∨
      opts.flags.inlineExpressions = true) :
    runWithOptions opts eng m =
      ([Event.consoleError lazyConflictMsg, Event.exitProcess 1], RunOutcome.exited 1) ∧
    (∀ mode, Event.invokeEngine mode ∉ (runWithOptions opts eng m).1) := by
  have hd := resolveModeFlags_delayInitializations opts.flags
  have hi := resolveModeFlags_inlineExpressions opts.flags
  have hmain : runWithOptions opts eng m =
      ([Event.consoleError lazyConflictMsg, Event.exitProcess 1], RunOutcome.exited 1) := by
    simp only [runWithOptions]
    rw [if_pos]
    rw [h1, hd, hi]
    rcases h2 with h | h | h <;> simp [h]
  refine ⟨hmain, ?_⟩
  intro mode
  rw [hmain]
  simp

/-- C6 witness: `--lazyObjectsRuntime X --additionalFunctions a,b` (as a
resolved configuration) conflicts and exits before any engine call. -/
theorem spec_C6_witness :
    runWithOptions lazyCfg idleEngine "mem" =
      ([Event.consoleError lazyConflictMsg, Event.exitProcess 1], RunOutcome.exited 1) ∧
    (∀ mode, Event.invokeEngine mode ∉ (runWithOptions lazyCfg idleEngine "mem").1) :=
  spec_C6 lazyCfg idleEngine "mem" rfl (Or.inl rfl)

/-- C8 (confirmed): an empty transformed-output text makes the result
processor report "Prepack returned empty code." and return: nothing is
written, and with no fatal-severity diagnostic the run completes with exit
code 0. -/
theorem spec_C8 (opts : ParsedOptions) (diags : List CompilerDiagnostic) (m : String)
    (r : SerializedResult) (h1 : r.code = "")
    (h2 : (printDiagnostics (buildStore diags)).2 = false) :
    processSerializedCode opts (buildStore diags) m none (some r) =
      (printDiagnosticsEvents (buildStore diags) ++
        [Event.consoleError "Prepack returned empty code."], POutcome.returned) ∧
    (runFileMode opts diags (FileOutcome.success r) m).2 = RunOutcome.completed ∧
    (∀ p c, Event.writeFile p c ∉ (runFileMode opts diags (FileOutcome.success r) m).1) := by
  have hp : processSerializedCode opts (buildStore diags) m none (some r) =
      (printDiagnosticsEvents (buildStore diags) ++
        [Event.consoleError "Prepack returned empty code."], POutcome.returned) := by
    simp [processSerializedCode, h2, serializedEvents, h1]
  refine ⟨hp, ?_, ?_⟩
  · simp [runFileMode, hp, h2]
  · intro p c
    simp only [runFileMode, hp, h2]
    by_cases he : buildStore diags = [] <;>
      simp [printDiagnosticsEvents, he]

/-- C8 witness: an empty-code result after a non-fatal diagnostic. -/
theorem spec_C8_witness :
    processSerializedCode initOptions (buildStore [warnDiag]) "mem" none (some emptyResult) =
      (printDiagnosticsEvents (buildStore [warnDiag]) ++
        [Event.consoleError "Prepack returned empty code."], POutcome.returned) ∧
    (runFileMode initOptions [warnDiag] (FileOutcome.success emptyResult) "mem").2 =
      RunOutcome.completed ∧
    (∀ p c, Event.writeFile p c ∉
      (runFileMode initOptions [warnDiag] (FileOutcome.success emptyResult) "mem").1) :=
  spec_C8 initOptions [warnDiag] "mem" emptyResult rfl (by decide)

/-- C3 (corrected): when a stats file is requested but the statistics or
timing field is absent, the result processor returns right after emitting
the transformed output — the only file it can have written is the output
file itself, so the requested source-map and heap-graph files are skipped
along with the stats file. -/
theorem spec_C3 (opts : ParsedOptions) (errors : DiagnosticStore) (m : String)
    (r : SerializedResult)
    (h0 : (printDiagnostics errors).2 = false)
    (h1 : truthyStr opts.statsFileName = true)
    (h2 : r.statistics = none ∨ r.timingStats = none)
    (h3 : r.code ≠ "") :
    (processSerializedCode opts errors m none (some r)).2 = POutcome.returned ∧
    (∀ p c, Event.writeFile p c ∈ (processSerializedCode opts errors m none (some r)).1 →
      opts.outputFilename = some p) := by
  have hse : serializedEvents opts r m =
      ((if truthyStr opts.outputFilename then
          [Event.consoleLog ("Prepacked source code written to " ++ opts.outputFilename.getD "" ++ "."),
           Event.writeFile (opts.outputFilename.getD "") r.code]
        else [Event.consoleLog r.code]), POutcome.returned) := by
    rw [serializedEvents, if_neg h3]
    rw [if_pos ⟨h1, h2⟩]
  have hp : processSerializedCode opts errors m none (some r) =
      (printDiagnosticsEvents errors ++ (serializedEvents opts r m).1,
        (serializedEvents opts r m).2) := by
    simp [processSerializedCode, h0]
  refine ⟨?_, ?_⟩
  · rw [hp, hse]
  · intro p c
    rw [hp, hse]
    rcases ho : opts.outputFilename with _ | s
    · by_cases he : errors = [] <;>
        simp [printDiagnosticsEvents, he, truthyStr, ho]
    · by_cases hs : s = ""
      · by_cases he : errors = [] <;>
          simp [printDiagnosticsEvents, he, truthyStr, ho, hs]
      · by_cases he : errors = [] <;>
          simp [printDiagnosticsEvents, he, truthyStr, ho, hs] <;>
          rintro he1 he2 <;> simp [he1]

/-- C3 counterexample: stats file and source-map file both requested,
timing statistics absent — the processor emits only the output text; the
requested source-map file is not written, contradicting the claim that
only the statistics step is skipped. -/
theorem spec_C3_cx :
    processSerializedCode statsCfg [] "mem" none (some statsMissingResult) =
      ([Event.consoleLog "var x = 1;"], POutcome.returned) ∧
    (∀ c, Event.writeFile "out.map" c ∉
      (processSerializedCode statsCfg [] "mem" none (some statsMissingResult)).1) := by
  have h : processSerializedCode statsCfg [] "mem" none (some statsMissingResult) =
      ([Event.consoleLog "var x = 1;"], POutcome.returned) := by rfl
  refine ⟨h, ?_⟩
  intro c
  rw [h]
  simp

/-- C3 witness: the amended statement at the counterexample configuration. -/
theorem spec_C3_witness :
    (processSerializedCode statsCfg [] "mem" none (some statsMissingResult)).2 =
      POutcome.returned ∧
    (∀ p c, Event.writeFile p c ∈
        (processSerializedCode statsCfg [] "mem" none (some statsMissingResult)).1 →
      statsCfg.outputFilename = some p) :=
  spec_C3 statsCfg [] "mem" statsMissingResult rfl rfl (Or.inr rfl) (by decide)

/-- C7 (confirmed): when two diagnostics of one run carry the same
location, the store keeps exactly one entry for that location, holding the
later diagnostic (JS `Map.set` overwrites), so the printed listing shows a
single entry for it; the callback answers Recover both times. -/
theorem spec_C7 (pre : List CompilerDiagnostic) (d1 d2 : CompilerDiagnostic)
    (loc : SourceLocation) (h1 : d1.location = some loc) (h2 : d2.location = some loc) :
    entriesAt (buildStore (pre ++ [d1, d2])) loc = [d2] ∧
    (errorHandler (buildStore (pre ++ [d1])) d2).2 = ErrorHandlerResult.Recover := by
  have hstep : buildStore (pre ++ [d1, d2]) =
      mapSet (mapSet (buildStore pre) loc d1) loc d2 := by
    unfold buildStore
    rw [List.foldl_append]
    simp [errorHandler, h1, h2]
  have hnd0 : ((buildStore pre).map Prod.fst).Nodup :=
    nodup_keys_errorHandler_foldl pre [] (by simp)
  have hnd1 := nodup_keys_mapSet hnd0 loc d1
  refine ⟨?_, ?_⟩
  · rw [hstep]
    exact entriesAt_mapSet_self hnd1 loc d2
  · simp [errorHandler, h2]

/-- C7 witness: two concrete diagnostics at the same location — the store
keeps exactly the second. -/
theorem spec_C7_witness :
    entriesAt (buildStore ([] ++ [warnDiag, dupLocDiag])) sampleLoc = [dupLocDiag] ∧
    (errorHandler (buildStore ([] ++ [warnDiag])) dupLocDiag).2 = ErrorHandlerResult.Recover :=
  spec_C7 [] warnDiag dupLocDiag sampleLoc rfl rfl

lemma parse_msd_step (t : String) :
    parseArgs ["--maxStackDepth", t] initOptions =
      (if jsToNumberIsNaN t = true
       then ParseResult.usageError
         [Event.consoleError "Stack depth value must be a number", Event.exitProcess 1]
       else ParseResult.ok { initOptions with maxStackDepth := some (jsParseInt10 t) }) := by
  by_cases hn : jsToNumberIsNaN t = true
  · rw [if_pos hn]
    show (match (if jsToNumberIsNaN t = true
                 then ParseResult.usageError
                   [Event.consoleError "Stack depth value must be a number", Event.exitProcess 1]
                 else ParseResult.ok { initOptions with maxStackDepth := some (jsParseInt10 t) }) with
          | ParseResult.ok opts2 => parseArgs [] opts2
          | r => r) = _
    rw [if_pos hn]
  · rw [if_neg hn]
    show (match (if jsToNumberIsNaN t = true
                 then ParseResult.usageError
                   [Event.consoleError "Stack depth value must be a number", Event.exitProcess 1]
                 else ParseResult.ok { initOptions with maxStackDepth := some (jsParseInt10 t) }) with
          | ParseResult.ok opts2 => parseArgs [] opts2
          | r => r) = _
    rw [if_neg hn]
    rfl

lemma parse_timeout_step (t : String) :
    parseArgs ["--timeout", t] initOptions =
      (if jsToNumberIsNaN t = true
       then ParseResult.usageError
         [Event.consoleError "Timeout must be a number", Event.exitProcess 1]
       else ParseResult.ok { initOptions with timeout := some (jsNumMul1000 (jsParseInt10 t)) }) := by
  by_cases hn : jsToNumberIsNaN t = true
  · rw [if_pos hn]
    show (match (if jsToNumberIsNaN t = true
                 then ParseResult.usageError
                   [Event.consoleError "Timeout must be a number", Event.exitProcess 1]
                 else ParseResult.ok { initOptions with
                   timeout := some (jsNumMul1000 (jsParseInt10 t)) }) with
          | ParseResult.ok opts2 => parseArgs [] opts2
          | r => r) = _
    rw [if_pos hn]
  · rw [if_neg hn]
    show (match (if jsToNumberIsNaN t = true
                 then ParseResult.usageError
                   [Event.consoleError "Timeout must be a number", Event.exitProcess 1]
                 else ParseResult.ok { initOptions with
                   timeout := some (jsNumMul1000 (jsParseInt10 t)) }) with
          | ParseResult.ok opts2 => parseArgs [] opts2
          | r => r) = _
    rw [if_neg hn]
    rfl

/-- C4 (corrected): the numeric options reject a token (with the
option-specific message and exit 1) exactly when JS `ToNumber` maps it to
NaN — not exactly when it fails to parse as a base-10 integer: a token such
as "1.5" is no base-10 integer yet is accepted and truncated by
`parseInt(·, 10)`.  Every genuine base-10 integer token is accepted and
resolves to its integer value (timeout additionally scaled by 1000). -/
theorem spec_C4 (t : String) :
    (parseArgs ["--maxStackDepth", t] initOptions =
        ParseResult.usageError
          [Event.consoleError "Stack depth value must be a number", Event.exitProcess 1] ↔
      jsToNumberIsNaN t = true) ∧
    (parseArgs ["--timeout", t] initOptions =
        ParseResult.usageError
          [Event.consoleError "Timeout must be a number", Event.exitProcess 1] ↔
      jsToNumberIsNaN t = true) ∧
    (jsToNumberIsNaN t = false →
      parseArgs ["--maxStackDepth", t] initOptions =
        ParseResult.ok { initOptions with maxStackDepth := some (jsParseInt10 t) } ∧
      parseArgs ["--timeout", t] initOptions =
        ParseResult.ok { initOptions with timeout := some (jsNumMul1000 (jsParseInt10 t)) }) ∧
    (isBase10IntegerToken t = true →
      jsToNumberIsNaN t = false ∧
      jsParseInt10 t = JsNumber.int (base10TokenValue t)) := by
  refine ⟨?_, ?_, ?_, ?_⟩
  · rw [parse_msd_step]
    by_cases hn : jsToNumberIsNaN t = true <;> simp [hn]
  · rw [parse_timeout_step]
    by_cases hn : jsToNumberIsNaN t = true <;> simp [hn]
  · intro hn
    rw [parse_msd_step, parse_timeout_step]
    simp [hn]
  · intro hb
    exact ⟨jsToNumberIsNaN_base10 hb, jsParseInt10_base10 hb⟩

/-- C4 witness: `maxStackDepth 12` resolves to 12, `timeout 5` to 5000,
and `maxStackDepth abc` is rejected with the specific message. -/
theorem spec_C4_witness :
    parseArgs ["--maxStackDepth", "12"] initOptions =
      ParseResult.ok { initOptions with maxStackDepth := some (JsNumber.int 12) } ∧
    parseArgs ["--timeout", "5"] initOptions =
      ParseResult.ok { initOptions with timeout := some (JsNumber.int 5000) } ∧
    parseArgs ["--maxStackDepth", "abc"] initOptions =
      ParseResult.usageError
        [Event.consoleError "Stack depth value must be a number", Event.exitProcess 1] := by
  refine ⟨?_, ?_, ?_⟩
  · have h := ((spec_C4 "12").2.2.1 (by decide)).1
    rw [h]
    rfl
  · have h := ((spec_C4 "5").2.2.1 (by decide)).2
    rw [h]
    rfl
  · exact ((spec_C4 "abc").1).mpr (by decide)

/-- C4 counterexample: the token "1.5" does not parse as a base-10 integer,
yet the option is accepted (no error, no non-zero exit) and resolves to 1 —
the claimed "fails if and only if not a base-10 integer" is false. -/
theorem spec_C4_cx :
    isBase10IntegerToken "1.5" = false ∧
    parseArgs ["--maxStackDepth", "1.5"] initOptions =
      ParseResult.ok { initOptions with maxStackDepth := some (JsNumber.int 1) } := by
  exact ⟨rfl, by rfl⟩

/-- C1 (corrected): the diagnostics listing is not emitted exactly once on
every path.  What holds: whenever the store is non-empty it is emitted at
least once in file mode and exactly once in stream mode; after each
emission the diagnostics are re-scanned for fatal severity and the process
exits 1 if one is present (in both modes, whatever the engine outcome);
but in file mode a run that completes normally — in particular a
successful engine result with only non-fatal diagnostics — emits the
listing exactly twice: once in `processSerializedCode` and once more in
the `finally` block. -/
theorem spec_C1 (opts : ParsedOptions) (diags : List CompilerDiagnostic)
    (o : FileOutcome) (r : SerializedResult) (err : Option EngineErr)
    (sr : Option SerializedResult) (m : String) :
    (buildStore diags ≠ [] → 1 ≤ countListings (runFileMode opts diags o m).1) ∧
    (buildStore diags ≠ [] →
      (runFileMode opts diags (FileOutcome.success r) m).2 = RunOutcome.completed →
      countListings (runFileMode opts diags (FileOutcome.success r) m).1 = 2) ∧
    ((printDiagnostics (buildStore diags)).2 = true →
      (runFileMode opts diags o m).2 = RunOutcome.exited 1) ∧
    ((printDiagnostics (buildStore diags)).2 = true →
      (runStreamMode opts diags err sr m).2 = RunOutcome.exited 1) ∧
    (buildStore diags ≠ [] → countListings (runStreamMode opts diags err sr m).1 = 1) :=
  ⟨fun hne => runFileMode_count_ge_one opts diags o m hne,
   fun hne hc => runFileMode_success_completed_count opts diags r m hne hc,
   fun hf => runFileMode_fatal_exits opts diags o m hf,
   fun hf => runStreamMode_fatal_exits opts diags err sr m hf,
   fun hne => runStreamMode_count opts diags err sr m hne⟩

/-- C1 witness: a single non-fatal diagnostic and a successful file-mode
run emit the listing twice; a fatal diagnostic forces exit 1; stream mode
emits the listing once. -/
theorem spec_C1_witness :
    countListings (runFileMode initOptions [warnDiag]
      (FileOutcome.success sampleResult) "mem").1 = 2 ∧
    (runFileMode initOptions [fatalDiag] (FileOutcome.success sampleResult) "mem").2 =
      RunOutcome.exited 1 ∧
    countListings (runStreamMode initOptions [warnDiag] none (some sampleResult) "mem").1 = 1 :=
  ⟨(spec_C1 initOptions [warnDiag] (FileOutcome.success sampleResult) sampleResult
      none none "mem").2.1 (by decide) (by decide),
   (spec_C1 initOptions [fatalDiag] (FileOutcome.success sampleResult) sampleResult
      none none "mem").2.2.1 (by decide),
   (spec_C1 initOptions [warnDiag] (FileOutcome.success sampleResult) sampleResult
      none (some sampleResult) "mem").2.2.2.2 (by decide)⟩

/-- C1 counterexample: in file mode with a successful engine result and one
accumulated (non-fatal) diagnostic, the listing is emitted twice, not
exactly once as claimed. -/
theorem spec_C1_cx :
    buildStore [warnDiag] ≠ [] ∧
    countListings (runFileMode initOptions [warnDiag]
      (FileOutcome.success sampleResult) "mem").1 = 2 ∧
    ¬ countListings (runFileMode initOptions [warnDiag]
      (FileOutcome.success sampleResult) "mem").1 = 1 := by
  refine ⟨by decide, by decide, by decide⟩

end PrepackCLI
